import Mathlib

/-!
# Verification of the rvban VBAN sender/recipient against its specification

This file gives a shallow embedding of the VBAN framing code and the two
engines of the `rvban` crate (`src/lib.rs`, `src/vban_recipient.rs`,
`src/vban_sender.rs`, `src/vban_sender_pw.rs`) and proves or refutes the
specification's claims about them.

Conventions of the embedding:
* Machine bytes (`u8`) and words (`u32`) are `Nat`s; wherever the Rust code
  truncates (an `as u8` cast) the embedding takes `% 256` explicitly, and
  wherever a Rust arithmetic operation can overflow or index out of bounds
  the embedding makes the failure explicit (an `Option` result, or a
  `panicked` outcome constructor).  Rust's `+=` on a fixed-width integer is
  overflow-checked (it panics on overflow when overflow checks are enabled,
  as in debug builds; the source does not use `wrapping_add`), so the
  embedding reports overflow rather than silently wrapping.
* Fallible external collaborators (ALSA devices, the PipeWire loop, the
  libopus encoder/decoder, UDP sockets) are out of scope per the spec; they
  enter as boolean/functional oracles in an environment record.
* Stateful engine methods become explicit state-passing functions returning
  an outcome together with the post-state.  A `panicked` outcome means the
  Rust code panics (unwrap/expect/index-out-of-bounds/explicit `panic!`);
  the returned state is the state at the moment of the panic.
-/

/-- Little-endian serialization of a `u32`, mirroring
`LittleEndian::write_u32` in `impl Into<[u8; 28]> for VBanHeader`. -/
def u32le (n : Nat) : List Nat :=
  [n % 256, n / 256 % 256, n / 65536 % 256, n / 16777216 % 256]

/-- `LittleEndian::read_i16` on two bytes (low byte first). -/
def readI16LE (lo hi : Nat) : Int :=
  let v : Nat := lo + 256 * hi
  if v < 32768 then (v : Int) else (v : Int) - 65536

/-- `LittleEndian::write_i16`: the two little-endian bytes of an `i16`. -/
def i16le (s : Int) : List Nat :=
  let u : Nat := (s % 65536).toNat
  [u % 256, u / 256 % 256]

/-- Truncate or right-pad (with `0 : Int`) a list to exactly `n` elements.
Models writing into a pre-zeroed fixed-size buffer. -/
def padTruncInt (l : List Int) (n : Nat) : List Int :=
  (l ++ List.replicate n 0).take n

-- ****************************************
--              VBAN Header
-- ****************************************

/-- The `VBanHeader` struct of `src/lib.rs`.  `preamble` is 4 bytes and
`stream_name` 16 bytes (array lengths in Rust; length side conditions in
theorems here). -/
@[ext]
structure VBanHeader where
  preamble : List Nat
  sample_rate : Nat
  num_samples : Nat
  num_channels : Nat
  sample_format : Nat
  stream_name : List Nat
  nu_frame : Nat
deriving Repr, DecidableEq

/-- `impl Into<[u8; 28]> for VBanHeader` (`src/lib.rs` lines 69-83):
`result[..4] = preamble`, `result[4..8]` the four scalar bytes,
`result[8..24] = stream_name`, `result[24..28]` the little-endian frame
counter. -/
def VBanHeader.intoBytes (h : VBanHeader) : List Nat :=
  h.preamble ++ [h.sample_rate, h.num_samples, h.num_channels, h.sample_format]
    ++ h.stream_name ++ u32le h.nu_frame

/-- `impl From<[u8; 28]> for VBanHeader` (`src/lib.rs` lines 51-67).  The
source sets `nu_frame` to the constant `0` (the real parse is commented
out); `stream_name` is built from the sixteen explicit indices 8..23.
Out-of-range reads default to 0, matching reads from the zero-initialized
receive buffer. -/
def VBanHeader.fromBytes (bs : List Nat) : VBanHeader :=
  { preamble := bs.take 4
    sample_rate := bs.getD 4 0
    num_samples := bs.getD 5 0
    num_channels := bs.getD 6 0
    sample_format := bs.getD 7 0
    stream_name := [bs.getD 8 0, bs.getD 9 0, bs.getD 10 0, bs.getD 11 0,
      bs.getD 12 0, bs.getD 13 0, bs.getD 14 0, bs.getD 15 0,
      bs.getD 16 0, bs.getD 17 0, bs.getD 18 0, bs.getD 19 0,
      bs.getD 20 0, bs.getD 21 0, bs.getD 22 0, bs.getD 23 0]
    nu_frame := 0 }

-- ****************************************
--           VBAN Sample Rates
-- ****************************************

/-- The `VBanSampleRates` enum of `src/lib.rs`. -/
inductive VBanSampleRates where
  | SampleRate6000Hz | SampleRate12000Hz | SampleRate24000Hz
  | SampleRate48000Hz | SampleRate96000Hz | SampleRate192000Hz
  | SampleRate384000Hz | SampleRate8000Hz | SampleRate16000Hz
  | SampleRate32000Hz | SampleRate64000Hz | SampleRate128000Hz
  | SampleRate256000Hz | SampleRate512000Hz | SampleRate11025Hz
  | SampleRate22050Hz | SampleRate44100Hz | SampleRate88200Hz
  | SampleRate176400Hz | SampleRate352800Hz | SampleRate705600Hz
  | SampleRateNotSupported
deriving Repr, DecidableEq

/-- Match arms of `impl From<u8> for VBanSampleRates` on the masked index
0..=20; the wildcard arm of the source is `panic!`, here `none`. -/
def VBanSampleRates.fromIdx : Nat → Option VBanSampleRates
  | 0 => some .SampleRate6000Hz
  | 1 => some .SampleRate12000Hz
  | 2 => some .SampleRate24000Hz
  | 3 => some .SampleRate48000Hz
  | 4 => some .SampleRate96000Hz
  | 5 => some .SampleRate192000Hz
  | 6 => some .SampleRate384000Hz
  | 7 => some .SampleRate8000Hz
  | 8 => some .SampleRate16000Hz
  | 9 => some .SampleRate32000Hz
  | 10 => some .SampleRate64000Hz
  | 11 => some .SampleRate128000Hz
  | 12 => some .SampleRate256000Hz
  | 13 => some .SampleRate512000Hz
  | 14 => some .SampleRate11025Hz
  | 15 => some .SampleRate22050Hz
  | 16 => some .SampleRate44100Hz
  | 17 => some .SampleRate88200Hz
  | 18 => some .SampleRate176400Hz
  | 19 => some .SampleRate352800Hz
  | 20 => some .SampleRate705600Hz
  | _ => none

/-- `impl From<u8> for VBanSampleRates` (`src/lib.rs` lines 153-180):
masks with `VBAN_SR_MASK = 0x1F` and panics (`none`) on masked values
21..=31. -/
def VBanSampleRates.fromU8 (b : Nat) : Option VBanSampleRates :=
  VBanSampleRates.fromIdx (b &&& 31)

/-- `impl Into<u8> for VBanSampleRates`: the table index; the
`SampleRateNotSupported` arm is `panic!`, here `none`. -/
def VBanSampleRates.intoU8 : VBanSampleRates → Option Nat
  | .SampleRate6000Hz => some 0
  | .SampleRate12000Hz => some 1
  | .SampleRate24000Hz => some 2
  | .SampleRate48000Hz => some 3
  | .SampleRate96000Hz => some 4
  | .SampleRate192000Hz => some 5
  | .SampleRate384000Hz => some 6
  | .SampleRate8000Hz => some 7
  | .SampleRate16000Hz => some 8
  | .SampleRate32000Hz => some 9
  | .SampleRate64000Hz => some 10
  | .SampleRate128000Hz => some 11
  | .SampleRate256000Hz => some 12
  | .SampleRate512000Hz => some 13
  | .SampleRate11025Hz => some 14
  | .SampleRate22050Hz => some 15
  | .SampleRate44100Hz => some 16
  | .SampleRate88200Hz => some 17
  | .SampleRate176400Hz => some 18
  | .SampleRate352800Hz => some 19
  | .SampleRate705600Hz => some 20
  | .SampleRateNotSupported => none

/-- `impl Into<u32> for VBanSampleRates`: the rate in Hz
(`SampleRateNotSupported` maps to 0 in the source). -/
def VBanSampleRates.intoU32 : VBanSampleRates → Nat
  | .SampleRate6000Hz => 6000
  | .SampleRate12000Hz => 12000
  | .SampleRate24000Hz => 24000
  | .SampleRate48000Hz => 48000
  | .SampleRate96000Hz => 96000
  | .SampleRate192000Hz => 192000
  | .SampleRate384000Hz => 384000
  | .SampleRate8000Hz => 8000
  | .SampleRate16000Hz => 16000
  | .SampleRate32000Hz => 32000
  | .SampleRate64000Hz => 64000
  | .SampleRate128000Hz => 128000
  | .SampleRate256000Hz => 256000
  | .SampleRate512000Hz => 512000
  | .SampleRate11025Hz => 11025
  | .SampleRate22050Hz => 22050
  | .SampleRate44100Hz => 44100
  | .SampleRate88200Hz => 88200
  | .SampleRate176400Hz => 176400
  | .SampleRate352800Hz => 352800
  | .SampleRate705600Hz => 705600
  | .SampleRateNotSupported => 0

-- ****************************************
--             VBAN Protocol
-- ****************************************

/-- The `VBanProtocol` enum of `src/lib.rs`. -/
inductive VBanProtocol where
  | VbanProtocolAudio | VbanProtocolSerial | VbanProtocolTxt
  | VbanProtocolService | VbanProtocolUndefined1 | VbanProtocolUndefined2
  | VbanProtocolUndefined3 | VbanProtocolUndefined4
deriving Repr, DecidableEq

/-- `impl From<u8> for VBanProtocol`: masks with `VBAN_PROTOCOL_MASK = 0xE0`.
All eight masked values are covered, so the source's `panic!` arm is
unreachable; the final catch-all here is the 0xE0 case. -/
def VBanProtocol.fromU8 (b : Nat) : VBanProtocol :=
  match b &&& 224 with
  | 0 => .VbanProtocolAudio
  | 32 => .VbanProtocolSerial
  | 64 => .VbanProtocolTxt
  | 96 => .VbanProtocolService
  | 128 => .VbanProtocolUndefined1
  | 160 => .VbanProtocolUndefined2
  | 192 => .VbanProtocolUndefined3
  | _ => .VbanProtocolUndefined4

-- ****************************************
--            VBAN Bit Resolution
-- ****************************************

/-- The `VBanBitResolution` enum of `src/lib.rs`. -/
inductive VBanBitResolution where
  | VbanBitfmt8Int | VbanBitfmt16Int | VbanBitfmt24Int | VbanBitfmt32Int
  | VbanBitfmt32Float | VbanBitfmt64Float | VbanBitfmt12Int
  | VbanBitfmt10Int | VbanBitResolutionMax
deriving Repr, DecidableEq

/-- `impl From<u8> for VBanBitResolution`: masks with
`VBAN_BIT_RESOLUTION_MASK = 0x07`.  Masked values are 0..=7, so the
source's `8 => Max` and `panic!` arms are unreachable; the catch-all here
is the 7 case. -/
def VBanBitResolution.fromU8 (b : Nat) : VBanBitResolution :=
  match b &&& 7 with
  | 0 => .VbanBitfmt8Int
  | 1 => .VbanBitfmt16Int
  | 2 => .VbanBitfmt24Int
  | 3 => .VbanBitfmt32Int
  | 4 => .VbanBitfmt32Float
  | 5 => .VbanBitfmt64Float
  | 6 => .VbanBitfmt12Int
  | _ => .VbanBitfmt10Int

/-- `impl Into<u8> for VBanBitResolution`, also the value of a
`VBanBitResolution as u8`/`as usize` discriminant cast. -/
def VBanBitResolution.intoU8 : VBanBitResolution → Nat
  | .VbanBitfmt8Int => 0
  | .VbanBitfmt16Int => 1
  | .VbanBitfmt24Int => 2
  | .VbanBitfmt32Int => 3
  | .VbanBitfmt32Float => 4
  | .VbanBitfmt64Float => 5
  | .VbanBitfmt12Int => 6
  | .VbanBitfmt10Int => 7
  | .VbanBitResolutionMax => 8

/-- `VBAN_BIT_RESOLUTION_SIZE` (`src/lib.rs` line 359): six entries only,
although bit-resolution codes run 0..=7. -/
def VBAN_BIT_RESOLUTION_SIZE : List Nat := [1, 2, 3, 4, 4, 8]

-- ****************************************
--              VBAN Codec
-- ****************************************

/-- The `VBanCodec` enum of `src/lib.rs`.  The Rust `VbanCodecOpus` variant
owns an `Option<opus::Encoder>`; the encoder object is an external
collaborator, so here the payload is just its presence. -/
inductive VBanCodec where
  | VbanCodecPcm | VbanCodecVbca | VbanCodecVbcv
  | VbanCodecUndefined3 | VbanCodecUndefined4 | VbanCodecUndefined5
  | VbanCodecUndefined6 | VbanCodecUndefined7 | VbanCodecUndefined8
  | VbanCodecUndefined9 | VbanCodecUndefined10 | VbanCodecUndefined11
  | VbanCodecOpus (hasEncoder : Bool)
  | VbanCodecUndefined13 | VbanCodecUndefined14 | VbanCodecUser
deriving Repr, DecidableEq

/-- `impl From<u8> for VBanCodec`: masks with `VBAN_CODEC_MASK = 0xF0`;
`0xC0` maps to `VbanCodecOpus(None)`; the source's own catch-all is
`VbanCodecUser`. -/
def VBanCodec.fromU8 (b : Nat) : VBanCodec :=
  match b &&& 240 with
  | 0 => .VbanCodecPcm
  | 16 => .VbanCodecVbca
  | 32 => .VbanCodecVbcv
  | 48 => .VbanCodecUndefined3
  | 64 => .VbanCodecUndefined4
  | 80 => .VbanCodecUndefined5
  | 96 => .VbanCodecUndefined6
  | 112 => .VbanCodecUndefined7
  | 128 => .VbanCodecUndefined8
  | 144 => .VbanCodecUndefined9
  | 160 => .VbanCodecUndefined10
  | 176 => .VbanCodecUndefined11
  | 192 => .VbanCodecOpus false
  | 208 => .VbanCodecUndefined13
  | 224 => .VbanCodecUndefined14
  | _ => .VbanCodecUser

/-- `impl Into<u8> for VBanCodec`: the wire nibble in the high four bits;
Opus maps to `0xC0`. -/
def VBanCodec.intoU8 : VBanCodec → Nat
  | .VbanCodecPcm => 0
  | .VbanCodecVbca => 16
  | .VbanCodecVbcv => 32
  | .VbanCodecUndefined3 => 48
  | .VbanCodecUndefined4 => 64
  | .VbanCodecUndefined5 => 80
  | .VbanCodecUndefined6 => 96
  | .VbanCodecUndefined7 => 112
  | .VbanCodecUndefined8 => 128
  | .VbanCodecUndefined9 => 144
  | .VbanCodecUndefined10 => 160
  | .VbanCodecUndefined11 => 176
  | .VbanCodecOpus _ => 192
  | .VbanCodecUndefined13 => 208
  | .VbanCodecUndefined14 => 224
  | .VbanCodecUser => 240

/-- The `PlayerState` enum of `src/lib.rs`. -/
inductive PlayerState where
  | Idle | Playing
deriving Repr, DecidableEq

-- ****************************************
--        UTF-8 validity (std contract)
-- ****************************************

/-- A UTF-8 continuation byte (`0x80..=0xBF`). -/
def utf8cont (c : Nat) : Bool := 128 ≤ c && c ≤ 191

/-- Whether a byte sequence is valid UTF-8: the success condition of
`std::str::from_utf8`, which `VbanRecipient::handle` calls with `.unwrap()`
on the 16-byte stream-name field.  Standard UTF-8 table: ASCII, two-byte
`C2..DF`, three-byte `E0/E1..EC/ED/EE..EF` (excluding overlongs and
surrogates), four-byte `F0/F1..F3/F4`. -/
def utf8Valid : List Nat → Bool
  | [] => true
  | b :: r =>
    if b ≤ 127 then utf8Valid r
    else if 194 ≤ b && b ≤ 223 then
      match r with
      | c1 :: r2 => utf8cont c1 && utf8Valid r2
      | [] => false
    else if b = 224 then
      match r with
      | c1 :: c2 :: r2 => (160 ≤ c1 && c1 ≤ 191) && utf8cont c2 && utf8Valid r2
      | _ => false
    else if 225 ≤ b && b ≤ 236 then
      match r with
      | c1 :: c2 :: r2 => utf8cont c1 && utf8cont c2 && utf8Valid r2
      | _ => false
    else if b = 237 then
      match r with
      | c1 :: c2 :: r2 => (128 ≤ c1 && c1 ≤ 159) && utf8cont c2 && utf8Valid r2
      | _ => false
    else if 238 ≤ b && b ≤ 239 then
      match r with
      | c1 :: c2 :: r2 => utf8cont c1 && utf8cont c2 && utf8Valid r2
      | _ => false
    else if b = 240 then
      match r with
      | c1 :: c2 :: c3 :: r2 =>
        (144 ≤ c1 && c1 ≤ 191) && utf8cont c2 && utf8cont c3 && utf8Valid r2
      | _ => false
    else if 241 ≤ b && b ≤ 243 then
      match r with
      | c1 :: c2 :: c3 :: r2 =>
        utf8cont c1 && utf8cont c2 && utf8cont c3 && utf8Valid r2
      | _ => false
    else if b = 244 then
      match r with
      | c1 :: c2 :: c3 :: r2 =>
        (128 ≤ c1 && c1 ≤ 143) && utf8cont c2 && utf8cont c3 && utf8Valid r2
      | _ => false
    else false

-- ****************************************
--            VBAN Recipient
-- ****************************************

/-- The PCM decode loop of `VbanRecipient::handle` (lines 207-233):
`to_sink = vec![0; audio_data.len() / 2]`, and for every even `idx` that is
not the final byte of an odd-length buffer, slot `idx / 2` receives the
little-endian `i16` at `audio_data[idx..idx+2]`.  Every slot of `to_sink`
is written, so the result is the pairwise little-endian reinterpretation of
the first `2 * (len / 2)` bytes.  (The running `left`/`right` maxima feed
only a commented-out printout and are omitted.) -/
def pcmToSink (data : List Nat) : List Int :=
  (List.range (data.length / 2)).map fun i =>
    readI16LE (data.getD (2 * i) 0) (data.getD (2 * i + 1) 0)

/-- State of `VbanRecipient` (`src/vban_recipient.rs`).  The socket, sink
object, `Instant` timer and hook command are external; the sink and Opus
decoder are tracked by presence.  `silence` is the configured prepend
duration. -/
@[ext]
structure VbanRecipient where
  sample_rate : Option VBanSampleRates
  num_channels : Option Nat
  sample_format : Option VBanBitResolution
  stream_name : Option (List Nat)
  nu_frame : Nat
  state : PlayerState
  hasSink : Bool
  silence : Nat
  hasDecoder : Bool
deriving Repr, DecidableEq

/-- Oracles for the recipient's external collaborators: the 2-second idle
timer, `opus::Decoder::new`, `Decoder::get_nb_samples`, `Decoder::decode`
(`none` = `Err`), and `AlsaSink::init`. -/
structure RecipientEnv where
  idleTimeout : Bool
  decoderNewOk : Bool
  opusNbSamples : List Nat → Option Nat
  opusDecode : List Nat → Option (List Int)
  sinkOpenOk : Bool

/-- Outcome of one `VbanRecipient::handle` call on a received datagram.
`panicked` marks a Rust panic (an `unwrap`/`expect` failure, an
out-of-bounds index, a panicking `From` conversion, or an overflow with
overflow checks enabled); `played` carries the `to_sink` buffer written to
the ALSA sink. -/
inductive RecipientOutcome where
  | notVban
  | droppedNumSamples
  | droppedProtocol
  | droppedCodec
  | droppedBits
  | droppedChannels
  | droppedName
  | droppedOpusChannels
  | droppedDecoderNew
  | sinkOpenFail
  | panicked
  | played (toSink : List Int)
deriving Repr, DecidableEq

/-- Sink-lifecycle stage of `VbanRecipient::handle` (lines 279-317).
`Idle`: bind the sink at the negotiated rate (failure logs, keeps `Idle`
and returns — `sinkOpenFail`); the `Some(sink)`-while-`Idle` branch only
logs and falls through.  `Playing`: `self.sample_rate.unwrap()` panics if
unset; on a rate change the sink is reopened with `.expect`, which panics
on failure.  Finally `self.sink.as_mut().unwrap()` writes `toSink`. -/
def VbanRecipient.sinkStage (st : VbanRecipient) (env : RecipientEnv)
    (sr : VBanSampleRates) (toSink : List Int) :
    RecipientOutcome × VbanRecipient :=
  if st.state = .Idle then
    if st.hasSink then (.played toSink, { st with state := .Playing })
    else
      let st := { st with sample_rate := some sr }
      if env.sinkOpenOk then
        (.played toSink, { st with hasSink := true, state := .Playing })
      else (.sinkOpenFail, st)
  else
    match st.sample_rate with
    | none => (.panicked, st)
    | some cur =>
      if sr ≠ cur then
        let st := { st with sample_rate := some sr }
        if ¬ st.hasSink then (.panicked, st)
        else if env.sinkOpenOk then (.played toSink, st)
        else (.panicked, st)
      else
        if st.hasSink then (.played toSink, st) else (.panicked, st)

/-- Payload-decode stage of `VbanRecipient::handle` (lines 201-277).  The
slice `&buf[28..size]` panics when `size < 28`; PCM reinterprets the
payload via `pcmToSink`; Opus lazily constructs a decoder (non-1/2 channel
counts and `Decoder::new` errors drop the packet), then
`get_nb_samples(..).unwrap()` and `decode(..).unwrap()` panic on `Err`.
The Opus output buffer is `vec![0; 2 * num_samples]`. -/
def VbanRecipient.handleDecode (st : VbanRecipient) (env : RecipientEnv)
    (pkt : List Nat) (sr : VBanSampleRates) :
    RecipientOutcome × VbanRecipient :=
  let size := min pkt.length 1464
  let head := VBanHeader.fromBytes pkt
  let num_samples := head.num_samples + 1
  let codec := VBanCodec.fromU8 head.sample_format
  if size < 28 then (.panicked, st) else
  let audio_data := (pkt.take size).drop 28
  match codec with
  | .VbanCodecPcm => VbanRecipient.sinkStage st env sr (pcmToSink audio_data)
  | .VbanCodecOpus _ =>
    let decodeRun : VbanRecipient → RecipientOutcome × VbanRecipient := fun st =>
      match env.opusNbSamples audio_data with
      | none => (.panicked, st)
      | some _ =>
        match env.opusDecode audio_data with
        | none => (.panicked, st)
        | some dec =>
          VbanRecipient.sinkStage st env sr (padTruncInt dec (2 * num_samples))
    if st.hasDecoder then decodeRun st
    else
      match st.num_channels with
      | none => (.panicked, st)
      | some 1 =>
        if env.decoderNewOk then decodeRun { st with hasDecoder := true }
        else (.droppedDecoderNew, st)
      | some 2 =>
        if env.decoderNewOk then decodeRun { st with hasDecoder := true }
        else (.droppedDecoderNew, st)
      | some _ => (.droppedOpusChannels, st)
  | _ => (.droppedCodec, st)

/-- Body of `VbanRecipient::handle` for a `VBAN`-preambled datagram (lines
152-199), entered with `sample_format` already overwritten from the packet
(line 150).  In source order: the never-true `num_samples > 256` bound;
the `VBAN_BIT_RESOLUTION_SIZE[...]` index, out of bounds (panic) for
bit-resolution codes 6 and 7; `from_utf8(&head.stream_name).unwrap()`,
panicking on invalid UTF-8; the protocol, codec and bit-width filters; the
panicking sample-rate conversion (`head.sample_rate.into()`); the channel
bound and the checked `num_channels + 1` store; the stream-name filter;
then the decode stage. -/
def VbanRecipient.handleVban (st : VbanRecipient) (env : RecipientEnv)
    (pkt : List Nat) : RecipientOutcome × VbanRecipient :=
  let head := VBanHeader.fromBytes pkt
  let num_samples := head.num_samples + 1
  if 256 < num_samples then (.droppedNumSamples, st) else
  match VBAN_BIT_RESOLUTION_SIZE.get?
      (VBanBitResolution.intoU8 (VBanBitResolution.fromU8 head.sample_format)) with
  | none => (.panicked, st)
  | some bits_per_sample =>
  let codec := VBanCodec.fromU8 head.sample_format
  let protocol := VBanProtocol.fromU8 head.sample_rate
  if ¬ utf8Valid head.stream_name then (.panicked, st) else
  if protocol ≠ .VbanProtocolAudio then (.droppedProtocol, st) else
  if ¬ (codec = .VbanCodecPcm ∨ codec = .VbanCodecOpus false
      ∨ codec = .VbanCodecOpus true) then (.droppedCodec, st) else
  if bits_per_sample ≠ 2 then (.droppedBits, st) else
  match VBanSampleRates.fromU8 head.sample_rate with
  | none => (.panicked, st)
  | some sr =>
  if 255 < head.num_channels then (.droppedChannels, st) else
  if 255 < head.num_channels + 1 then (.panicked, st) else
  let st := { st with num_channels := some (head.num_channels + 1) }
  match st.stream_name with
  | some fl =>
    if ¬ utf8Valid fl then (.panicked, st) else
    if fl ≠ head.stream_name then (.droppedName, st) else
    VbanRecipient.handleDecode st env pkt sr
  | none => VbanRecipient.handleDecode st env pkt sr

/-- `VbanRecipient::handle` (lines 107-322) for one received datagram
`pkt`.  The 2-second idle-timeout block runs first (sink drained and
released, back to `Idle`); the `recv_from` is assumed to have delivered
`pkt` (on timeout/error the source returns after the timeout block).  The
preamble comparison `buf[..4] == *b"VBAN"` reads the zero-initialized
buffer, hence the `getD` defaults; a matching preamble immediately
overwrites `self.sample_format` from packet byte 7 (line 150) before any
validation. -/
def VbanRecipient.handle (st : VbanRecipient) (env : RecipientEnv)
    (pkt : List Nat) : RecipientOutcome × VbanRecipient :=
  let st := if st.state = .Playing ∧ env.idleTimeout then
    { st with state := .Idle, hasSink := false } else st
  if pkt.getD 0 0 = 86 ∧ pkt.getD 1 0 = 66 ∧ pkt.getD 2 0 = 65
      ∧ pkt.getD 3 0 = 78 then
    let fmt := VBanBitResolution.fromU8 ((VBanHeader.fromBytes pkt).sample_format)
    VbanRecipient.handleVban { st with sample_format := some fmt } env pkt
  else (.notVban, st)

-- ****************************************
--             VBAN Senders
-- ****************************************

/-- `OPUS_FRAME_SIZE` (`src/vban_sender.rs` line 12). -/
def OPUS_FRAME_SIZE : Nat := 240

/-- `VBAN_PACKET_MAX_SAMPLES` (`src/lib.rs` line 30). -/
def VBAN_PACKET_MAX_SAMPLES : Nat := 256

/-- State of the ALSA-source `VbanSender` (`src/vban_sender.rs`).  The
socket, `AlsaSource` object and `opus::Encoder` object are external; the
source and encoder are tracked by presence (`encoder : Option<Encoder>` in
Rust). -/
@[ext]
structure VbanSenderAlsa where
  num_channels : Nat
  sample_rate : VBanSampleRates
  sample_format : VBanBitResolution
  name : List Nat
  nu_frame : Nat
  state : PlayerState
  hasSource : Bool
  hasEncoder : Bool
deriving Repr, DecidableEq

/-- State of the PipeWire-source `VbanSender` (`src/vban_sender_pw.rs`).
Its `encoder` field holds a `VBanCodec` value (`VbanCodecPcm`, or
`VbanCodecOpus` with or without an encoder instance); the source exists
from creation. -/
@[ext]
structure VbanSenderPw where
  num_channels : Nat
  sample_rate : VBanSampleRates
  sample_format : VBanBitResolution
  name : List Nat
  nu_frame : Nat
  encoder : VBanCodec
deriving Repr, DecidableEq

/-- Oracles for a sender `handle` call: `AlsaSource::init`, the blocking
`source.read` fill for a requested length, `Encoder::encode` (`none` =
`Err`, which the source maps to a zero-length payload), and the
`socket.connect`/`socket.send` results (both only logged). -/
structure SenderEnv where
  sourceOpenOk : Bool
  sourceRead : Nat → List Int
  opusEncode : List Int → Option (List Nat)
  connectOk : Bool
  sendOk : Bool

/-- Outcome of one sender `handle` call.  `sent` carries the emitted
datagram; `sentOverflowPanic` marks the case where the datagram goes out
and the trailing `self.nu_frame += 1` then overflows `u32` (a panic when
overflow checks are enabled; the source does not use `wrapping_add`).
`panicked` covers the other panic points (missing source/encoder unwrap,
division by zero on a zero channel count, `usize` underflow of
`samples - 1`, `Into<u8>` on `SampleRateNotSupported`, the `panic!` arms
of the pipewire codec matches). -/
inductive SenderOutcome where
  | noSource
  | panicked
  | oversizeDrop
  | sent (p : List Nat)
  | sentOverflowPanic (p : List Nat)
deriving Repr, DecidableEq

/-- Packet-assembly-and-send tail shared verbatim by both senders
(`vban_sender.rs` lines 202-236, `vban_sender_pw.rs` lines 194-230):
build the header (`num_channels - 1` on the wire), serialize it, check the
1464-byte bound (log and drop without counter increment), copy the payload
after the 28 header bytes, connect and send (failures only logged), then
`self.nu_frame += 1` with `u32` overflow checking. -/
def senderTransmit (nu_frame : Nat) (srByte : Option Nat) (nsByte : Nat)
    (numCh : Nat) (fmtByte : Nat) (name : List Nat) (encoded : List Nat)
    (bump : Nat → α → α) (st : α) :
    SenderOutcome × α :=
  match srByte with
  | none => (.panicked, st)
  | some srb =>
    let hdr := VBanHeader.intoBytes
      { preamble := [86, 66, 65, 78], sample_rate := srb, num_samples := nsByte,
        num_channels := numCh - 1, sample_format := fmtByte,
        stream_name := name, nu_frame := nu_frame }
    if 1464 < hdr.length + encoded.length then (.oversizeDrop, st) else
    let p := hdr ++ encoded
    if nu_frame = 4294967295 then (.sentOverflowPanic p, st)
    else (.sent p, bump (nu_frame + 1) st)

/-- `VbanSender::handle` of the ALSA-source sender (`src/vban_sender.rs`
lines 143-237).  On `Idle`, `AlsaSource::init` failure returns without a
source; success moves to `Playing`.  The capture buffer is
`256 * 2` samples for PCM and `OPUS_FRAME_SIZE * num_channels` for Opus;
PCM payload is the little-endian byte serialization, Opus payload comes
from the encoder (`Err` gives a zero-length payload).
`num_samples = (audio_in.len() / num_channels) - 1` divides (panicking on
a zero channel count) and subtracts with `usize` underflow checking, then
truncates with `as u8`.  The format byte ORs in
`VBanCodec::VbanCodecOpus as u8`: the discriminant of the Opus variant,
which is 12 (0x0C) — not the `Into<u8>` wire value 0xC0. -/
def VbanSenderAlsa.handle (st : VbanSenderAlsa) (env : SenderEnv) :
    SenderOutcome × VbanSenderAlsa :=
  if st.state = .Idle ∧ ¬ env.sourceOpenOk then (.noSource, st) else
  let st := if st.state = .Idle then
    { st with state := .Playing, hasSource := true } else st
  if ¬ st.hasSource then (.panicked, st) else
  let len := if st.hasEncoder then OPUS_FRAME_SIZE * st.num_channels
    else VBAN_PACKET_MAX_SAMPLES * 2
  let audio_in := padTruncInt (env.sourceRead len) len
  let encoded := if st.hasEncoder then
      (match env.opusEncode audio_in with
        | some bs => bs
        | none => [])
    else (audio_in.map i16le).flatten
  if st.num_channels = 0 then (.panicked, st) else
  if audio_in.length / st.num_channels = 0 then (.panicked, st) else
  let nsByte := (audio_in.length / st.num_channels - 1) % 256
  let fmtByte := VBanBitResolution.intoU8 st.sample_format
    ||| (if st.hasEncoder then 12 else 0)
  senderTransmit st.nu_frame (VBanSampleRates.intoU8 st.sample_rate) nsByte
    st.num_channels fmtByte st.name encoded
    (fun nf s => { s with nu_frame := nf }) st

/-- `VbanSender::handle` of the PipeWire-source sender
(`src/vban_sender_pw.rs` lines 151-231).  The codec matches panic on any
codec other than PCM/Opus; with `VbanCodecOpus(None)` the
`enc.as_mut().unwrap()` panics.  The format byte ORs in
`<VBanCodec as Into<u8>>::into(VBanCodecOpus(None))` = 0xC0. -/
def VbanSenderPw.handle (st : VbanSenderPw) (env : SenderEnv) :
    SenderOutcome × VbanSenderPw :=
  let lenOpt := match st.encoder with
    | .VbanCodecPcm => some (VBAN_PACKET_MAX_SAMPLES * 2)
    | .VbanCodecOpus _ => some (OPUS_FRAME_SIZE * st.num_channels)
    | _ => none
  match lenOpt with
  | none => (.panicked, st)
  | some len =>
  let audio_in := padTruncInt (env.sourceRead len) len
  let encodedOpt := match st.encoder with
    | .VbanCodecPcm => some ((audio_in.map i16le).flatten)
    | .VbanCodecOpus true =>
      some (match env.opusEncode audio_in with
        | some bs => bs
        | none => [])
    | .VbanCodecOpus false => none
    | _ => none
  match encodedOpt with
  | none => (.panicked, st)
  | some encoded =>
  if st.num_channels = 0 then (.panicked, st) else
  let num_samples := audio_in.length / st.num_channels
  let fmtByte := VBanBitResolution.intoU8 st.sample_format
    ||| (match st.encoder with
      | .VbanCodecOpus _ => VBanCodec.intoU8 (.VbanCodecOpus false)
      | _ => 0)
  if num_samples = 0 then (.panicked, st) else
  senderTransmit st.nu_frame (VBanSampleRates.intoU8 st.sample_rate)
    ((num_samples - 1) % 256) st.num_channels fmtByte st.name encoded
    (fun nf s => { s with nu_frame := nf }) st

/-- Result of a sender `create`: `created` = `Some(sender)`, `failed` =
`None`, `panicked` = an aborted `.expect`/index panic inside `create`. -/
inductive CreateResult (α : Type) where
  | created (st : α)
  | failed
  | panicked
deriving Repr, DecidableEq

/-- Oracles for `create`: the `UdpSocket::bind` result and (pipewire only)
the `PipewireSource::init` result. -/
structure CreateEnv where
  bindOk : Bool
  sourceOpenOk : Bool

/-- Modelled from the spec: the Opus encoder constructor
(`opus::Encoder::new`, an external library not part of this repository)
succeeds exactly at the Opus-internal coding rates 12000/24000/48000 that
spec §3 lists as the constraint for this application; at any other rate it
returns `Err`, which `.expect` turns into a panic. -/
def opusEncoderNewOk (hz : Nat) : Bool :=
  hz = 12000 || hz = 24000 || hz = 48000

/-- Arguments of the ALSA sender's `create` (`src/vban_sender.rs` line 53)
that the embedding tracks (peer/local addresses and source name are opaque
to the checked logic; the bind result is an oracle). -/
structure SenderCfgAlsa where
  stream_name : Option (List Nat)
  numch : Nat
  sample_rate : VBanSampleRates
  format : VBanBitResolution
  encoder : Option VBanCodec
deriving DecidableEq

/-- `VbanSender::create` of the ALSA-source sender (`src/vban_sender.rs`
lines 53-141).  Checks in source order: bit resolution, stream-name
length, then the name copy — for `Some(custom_name)` the loop iterates
over all 16 slots of `name` and indexes `custom_name.as_bytes()[idx]`,
which panics (index out of bounds) whenever the name is shorter than 16
bytes; the `None` arm copies the 7 bytes of `"Stream1"` into the zeroed
array.  The encoder match returns `None` for non-1/2 Opus channel counts
and for unimplemented codecs, and builds the Opus encoder with
`Encoder::new(..).expect(..)` — a panic, not `None`, when the rate is not
an Opus coding rate.  `UdpSocket::bind` failure returns `None`.  No
capture source is initialized here (that happens in `handle`). -/
def VbanSenderAlsa.create (cfg : SenderCfgAlsa) (env : CreateEnv) :
    CreateResult VbanSenderAlsa :=
  if cfg.format ≠ .VbanBitfmt16Int then .failed else
  if (match cfg.stream_name with
      | some n => decide (16 < n.length)
      | none => false) then .failed else
  match (match cfg.stream_name with
    | none => some ([83, 116, 114, 101, 97, 109, 49] ++ List.replicate 9 0)
    | some custom =>
      if custom.length < 16 then none else some (custom.take 16)) with
  | none => .panicked
  | some name =>
  match (match cfg.encoder with
    | none => CreateResult.created false
    | some .VbanCodecPcm => CreateResult.created false
    | some (.VbanCodecOpus _) =>
      if cfg.numch = 1 ∨ cfg.numch = 2 then
        if opusEncoderNewOk (VBanSampleRates.intoU32 cfg.sample_rate) then
          CreateResult.created true
        else CreateResult.panicked
      else CreateResult.failed
    | some _ => CreateResult.failed) with
  | .failed => .failed
  | .panicked => .panicked
  | .created hasEnc =>
  if ¬ env.bindOk then .failed else
  .created { num_channels := cfg.numch, sample_rate := cfg.sample_rate,
             sample_format := cfg.format, name := name, nu_frame := 0,
             state := .Idle, hasSource := false, hasEncoder := hasEnc }

/-- Arguments of the pipewire sender's `create`
(`src/vban_sender_pw.rs` line 55): the stream name is a plain `String`
(not an `Option`) and the codec argument is a raw `u8`. -/
structure SenderCfgPw where
  stream_name : List Nat
  numch : Nat
  sample_rate : VBanSampleRates
  format : VBanBitResolution
  encoder : Nat
deriving DecidableEq

/-- `VbanSender::create` of the PipeWire-source sender
(`src/vban_sender_pw.rs` lines 55-147).  Checks in source order: bit
resolution; stream-name length; the zero-padding copy
`name[..len].copy_from_slice(..)`; the codec match on
`VBanCodec::from(encoder)` — Opus with channels outside 1/2 or a sample
rate outside 12000/24000/48000 returns `None` (the rate check is explicit
here, so `Encoder::new` is only called at rates it accepts);
`PipewireSource::init` failure and `UdpSocket::bind` failure return
`None`. -/
def VbanSenderPw.create (cfg : SenderCfgPw) (env : CreateEnv) :
    CreateResult VbanSenderPw :=
  if cfg.format ≠ .VbanBitfmt16Int then .failed else
  if 16 < cfg.stream_name.length then .failed else
  let name := cfg.stream_name ++ List.replicate (16 - cfg.stream_name.length) 0
  match (match VBanCodec.fromU8 cfg.encoder with
    | .VbanCodecPcm => some VBanCodec.VbanCodecPcm
    | .VbanCodecOpus false =>
      if cfg.numch = 1 ∨ cfg.numch = 2 then
        match cfg.sample_rate with
        | .SampleRate12000Hz => some (VBanCodec.VbanCodecOpus true)
        | .SampleRate24000Hz => some (VBanCodec.VbanCodecOpus true)
        | .SampleRate48000Hz => some (VBanCodec.VbanCodecOpus true)
        | _ => none
      else none
    | .VbanCodecOpus true => some (VBanCodec.VbanCodecOpus true)
    | _ => none) with
  | none => .failed
  | some enc =>
  if ¬ env.sourceOpenOk then .failed else
  if ¬ env.bindOk then .failed else
  .created { num_channels := cfg.numch, sample_rate := cfg.sample_rate,
             sample_format := cfg.format, name := name, nu_frame := 0,
             encoder := enc }

-- ****************************************
--        Theorems: framing codec
-- ****************************************

/-- A list of `Nat`s of length 16 is a 16-element literal. -/
theorem list16_exists (l : List Nat) (h : l.length = 16) :
    ∃ a0 a1 a2 a3 a4 a5 a6 a7 a8 a9 a10 a11 a12 a13 a14 a15,
      l = [a0, a1, a2, a3, a4, a5, a6, a7, a8, a9, a10, a11, a12, a13, a14, a15] := by
  obtain _ | ⟨b0, l⟩ := l; · exact absurd h (by simp)
  obtain _ | ⟨b1, l⟩ := l; · exact absurd h (by simp)
  obtain _ | ⟨b2, l⟩ := l; · exact absurd h (by simp)
  obtain _ | ⟨b3, l⟩ := l; · exact absurd h (by simp)
  obtain _ | ⟨b4, l⟩ := l; · exact absurd h (by simp)
  obtain _ | ⟨b5, l⟩ := l; · exact absurd h (by simp)
  obtain _ | ⟨b6, l⟩ := l; · exact absurd h (by simp)
  obtain _ | ⟨b7, l⟩ := l; · exact absurd h (by simp)
  obtain _ | ⟨b8, l⟩ := l; · exact absurd h (by simp)
  obtain _ | ⟨b9, l⟩ := l; · exact absurd h (by simp)
  obtain _ | ⟨b10, l⟩ := l; · exact absurd h (by simp)
  obtain _ | ⟨b11, l⟩ := l; · exact absurd h (by simp)
  obtain _ | ⟨b12, l⟩ := l; · exact absurd h (by simp)
  obtain _ | ⟨b13, l⟩ := l; · exact absurd h (by simp)
  obtain _ | ⟨b14, l⟩ := l; · exact absurd h (by simp)
  obtain _ | ⟨b15, l⟩ := l; · exact absurd h (by simp)
  obtain _ | ⟨b16, l⟩ := l
  · exact ⟨b0, b1, b2, b3, b4, b5, b6, b7, b8, b9, b10, b11, b12, b13, b14, b15, rfl⟩
  · exact absurd h (by simp)

/-- The header of spec §8's byte-exact encode example: sr index 3 with
audio sub-protocol, 256 samples on the wire, 2 channels, 16-bit PCM,
stream name `"Stream1"` zero-padded, frame counter 0. -/
def c9hdr : VBanHeader :=
  { preamble := [86, 66, 65, 78], sample_rate := 3, num_samples := 255,
    num_channels := 1, sample_format := 1,
    stream_name := [83, 116, 114, 101, 97, 109, 49, 0, 0, 0, 0, 0, 0, 0, 0, 0],
    nu_frame := 0 }

/-- C9: encoding the header with preamble `"VBAN"`, sample-rate index 3
(audio sub-protocol), num_samples byte 255, num_channels byte 1, format
byte 0x01, stream name `"Stream1"` zero-padded to 16 bytes and frame
counter 0 yields exactly the 28 bytes
`56 42 41 4E 03 FF 01 01 53 74 72 65 61 6D 31 00 ... 00`. -/
theorem c9_encode_header_bytes :
    VBanHeader.intoBytes c9hdr =
      [0x56, 0x42, 0x41, 0x4E, 0x03, 0xFF, 0x01, 0x01,
       0x53, 0x74, 0x72, 0x65, 0x61, 0x6D, 0x31, 0x00,
       0x00, 0x00, 0x00, 0x00, 0x00, 0x00, 0x00, 0x00,
       0x00, 0x00, 0x00, 0x00] := by
  rfl

/-- A valid header whose encoding does not survive the decode round trip:
frame counter 1. -/
def c2hdr : VBanHeader :=
  { preamble := [86, 66, 65, 78], sample_rate := 3, num_samples := 255,
    num_channels := 1, sample_format := 1,
    stream_name := [83, 116, 114, 101, 97, 109, 49, 0, 0, 0, 0, 0, 0, 0, 0, 0],
    nu_frame := 1 }

/-- C2 counterexample: for the valid header `c2hdr` (preamble `"VBAN"`,
sample-rate index 3, 16-byte stream name, frame counter 1), decoding the
encoding does not give the header back: `From<[u8; 28]>` leaves `nu_frame`
at the constant 0, so the frame counter is lost. -/
theorem c2_roundtrip_counterexample :
    VBanHeader.fromBytes (VBanHeader.intoBytes c2hdr) ≠ c2hdr := by
  decide

/-- C2 as amended: for every valid header (4-byte `"VBAN"` preamble,
sample-rate index at most 20, 16-byte stream name), decoding the encoding
restores every field except the frame counter, which decodes as 0. -/
theorem c2_roundtrip_zeroes_frame (h : VBanHeader)
    (hp : h.preamble = [86, 66, 65, 78])
    (hsr : h.sample_rate &&& 31 ≤ 20)
    (hn : h.stream_name.length = 16) :
    VBanHeader.fromBytes (VBanHeader.intoBytes h) = { h with nu_frame := 0 } := by
  obtain ⟨p, sr, ns, nc, f, sn, nu⟩ := h
  simp only at hp hn
  subst hp
  obtain ⟨a0, a1, a2, a3, a4, a5, a6, a7, a8, a9, a10, a11, a12, a13, a14, a15, rfl⟩ :=
    list16_exists sn hn
  rfl

/-- C2 witness: the round-trip-with-zeroed-counter theorem at the concrete
header `c9hdr` (whose counter is 0, so the round trip is exact there). -/
theorem c2_roundtrip_zeroes_frame_witness :
    VBanHeader.fromBytes (VBanHeader.intoBytes c9hdr) = { c9hdr with nu_frame := 0 } :=
  c2_roundtrip_zeroes_frame c9hdr rfl (by decide) rfl

-- ****************************************
--     Theorems: recipient error handling
-- ****************************************

/-- A freshly created recipient (`VbanRecipient::create` with no stream
filter, no channel/rate hints, no silence): `sample_format` and the sink
start unset, state `Idle`. -/
def st0 : VbanRecipient :=
  { sample_rate := none, num_channels := none, sample_format := none,
    stream_name := none, nu_frame := 0, state := .Idle, hasSink := false,
    silence := 0, hasDecoder := false }

/-- A benign environment: no idle timeout, decoder construction and sink
open succeed, Opus calls succeed. -/
def env0 : RecipientEnv :=
  { idleTimeout := false, decoderNewOk := true,
    opusNbSamples := fun _ => some 120, opusDecode := fun _ => some [],
    sinkOpenOk := true }

/-- `env0` with a failing `Decoder::get_nb_samples`. -/
def envNbFail : RecipientEnv := { env0 with opusNbSamples := fun _ => none }

/-- `env0` with a failing `Decoder::decode`. -/
def envDecodeFail : RecipientEnv := { env0 with opusDecode := fun _ => none }

/-- 28-byte datagram: preamble `"VBAN"`, byte 4 = 21 (sample-rate index
21, audio sub-protocol), PCM 16-bit format byte, all-zero name and
counter. -/
def c4pkt : List Nat :=
  [86, 66, 65, 78, 21, 0, 0, 1] ++ List.replicate 16 0 ++ [0, 0, 0, 0]

/-- C4 counterexample: the sample-rate interpretation of a decoded header
is not a recoverable error: `From<u8> for VBanSampleRates` panics (no
value) at index 21, and on the concrete `"VBAN"` datagram `c4pkt` — which
reaches that conversion — `VbanRecipient::handle` panics, so decoding a
header with sample-rate index 21 aborts the program instead of returning
an `InvalidSampleRate` value (no `ParseError` type exists in the code). -/
theorem c4_decode_abort_counterexample :
    VBanSampleRates.fromU8 21 = none ∧
    (VbanRecipient.handle st0 env0 c4pkt).1 = RecipientOutcome.panicked :=
  ⟨rfl, rfl⟩

/-- C4 as amended: header decoding itself (`From<[u8; 28]>`) is total and
validates nothing — it returns the raw fields for every input, including a
non-`"VBAN"` preamble (the preamble is checked separately by `handle`,
which logs and drops); and the subsequent sample-rate interpretation
panics (returns no value) for every low-5-bit index above 20 while
succeeding for every index at most 20. -/
theorem c4_decode_total_and_sr_panics :
    (∀ bs : List Nat, (VBanHeader.fromBytes bs).preamble = bs.take 4 ∧
      (VBanHeader.fromBytes bs).sample_rate = bs.getD 4 0) ∧
    (∀ b : Nat, 20 < b &&& 31 → VBanSampleRates.fromU8 b = none) ∧
    (∀ b : Nat, b &&& 31 ≤ 20 → (VBanSampleRates.fromU8 b).isSome = true) := by
  refine ⟨fun bs => ⟨rfl, rfl⟩, fun b hb => ?_, fun b hb => ?_⟩
  · have h31 : b &&& 31 ≤ 31 := Nat.and_le_right
    show VBanSampleRates.fromIdx (b &&& 31) = none
    obtain ⟨k, hk⟩ : ∃ k, b &&& 31 = k := ⟨_, rfl⟩
    rw [hk] at hb h31 ⊢
    interval_cases k <;> rfl
  · show (VBanSampleRates.fromIdx (b &&& 31)).isSome = true
    obtain ⟨k, hk⟩ : ∃ k, b &&& 31 = k := ⟨_, rfl⟩
    rw [hk] at hb ⊢
    interval_cases k <;> rfl

/-- C4 witness: the amended statement applied at byte 21 (low bits 21,
panic) and byte 3 (index 3, success). -/
theorem c4_decode_total_and_sr_panics_witness :
    VBanSampleRates.fromU8 21 = none ∧
    (VBanSampleRates.fromU8 3).isSome = true :=
  ⟨c4_decode_total_and_sr_panics.2.1 21 (by decide),
   c4_decode_total_and_sr_panics.2.2 3 (by decide)⟩

/-- 28-byte `"VBAN"` datagram whose 16-byte stream-name field starts with
0xFF — not valid UTF-8. -/
def c1pktBadUtf8 : List Nat :=
  [86, 66, 65, 78, 3, 0, 0, 1] ++ (255 :: List.replicate 15 0) ++ [0, 0, 0, 0]

/-- 28-byte `"VBAN"` datagram with bit-resolution code 6 in byte 7. -/
def c1pktBitRes6 : List Nat :=
  [86, 66, 65, 78, 3, 0, 0, 6] ++ List.replicate 16 0 ++ [0, 0, 0, 0]

/-- 28-byte `"VBAN"` datagram with sample-rate index 25 (audio
sub-protocol), PCM 16-bit. -/
def c1pktSr25 : List Nat :=
  [86, 66, 65, 78, 25, 0, 0, 1] ++ List.replicate 16 0 ++ [0, 0, 0, 0]

/-- 32-byte `"VBAN"` datagram with the Opus codec nibble (byte 7 = 0xC1),
stereo (byte 6 = 1), sample-rate index 3, and a 4-byte payload. -/
def c1pktOpus : List Nat :=
  [86, 66, 65, 78, 3, 0, 1, 193] ++ List.replicate 16 0 ++ [0, 0, 0, 0]
    ++ [1, 2, 3, 4]

/-- 8-byte `"VBAN"` datagram (PCM 16-bit header prefix, truncated before
the name field). -/
def c1pktShort : List Nat := [86, 66, 65, 78, 3, 0, 0, 1]

/-- C1: `VbanRecipient::handle` does NOT return normally on the claim's
malformed inputs — it panics on each of them: a stream name that is not
valid UTF-8 (`from_utf8(..).unwrap()`), bit-resolution code 6
(out-of-bounds index into the 6-entry `VBAN_BIT_RESOLUTION_SIZE`),
sample-rate index 25 (panicking `From<u8> for VBanSampleRates`), an Opus
payload failing `get_nb_samples` or `decode` (both `.unwrap()`, marked
`TODO: needs proper error handling` in the source), and additionally a
`"VBAN"` datagram shorter than 28 bytes (the slice `&buf[28..size]`
panics). -/
theorem c1_handle_panics_on_malformed_packets :
    (VbanRecipient.handle st0 env0 c1pktBadUtf8).1 = RecipientOutcome.panicked ∧
    (VbanRecipient.handle st0 env0 c1pktBitRes6).1 = RecipientOutcome.panicked ∧
    (VbanRecipient.handle st0 env0 c1pktSr25).1 = RecipientOutcome.panicked ∧
    (VbanRecipient.handle st0 envNbFail c1pktOpus).1 = RecipientOutcome.panicked ∧
    (VbanRecipient.handle st0 envDecodeFail c1pktOpus).1 = RecipientOutcome.panicked ∧
    (VbanRecipient.handle st0 env0 c1pktShort).1 = RecipientOutcome.panicked :=
  ⟨rfl, rfl, rfl, rfl, rfl, rfl⟩

-- ****************************************
--  Theorems: recipient state mutation (C10)
-- ****************************************

/-- The sink-lifecycle stage never touches the negotiated
`sample_format`. -/
theorem sinkStage_sample_format (st : VbanRecipient) (env : RecipientEnv)
    (sr : VBanSampleRates) (ts : List Int) :
    (VbanRecipient.sinkStage st env sr ts).2.sample_format = st.sample_format := by
  unfold VbanRecipient.sinkStage
  repeat' first
    | rfl
    | split
    | dsimp only

/-- The decode stage never touches the negotiated `sample_format`. -/
theorem handleDecode_sample_format (st : VbanRecipient) (env : RecipientEnv)
    (pkt : List Nat) (sr : VBanSampleRates) :
    (VbanRecipient.handleDecode st env pkt sr).2.sample_format = st.sample_format := by
  simp only [VbanRecipient.handleDecode]
  repeat' first
    | rfl
    | rw [sinkStage_sample_format]
    | split

/-- The post-preamble body never changes `sample_format` away from the
value written at entry. -/
theorem handleVban_sample_format (st : VbanRecipient) (env : RecipientEnv)
    (pkt : List Nat) :
    (VbanRecipient.handleVban st env pkt).2.sample_format = st.sample_format := by
  simp only [VbanRecipient.handleVban]
  repeat' first
    | rfl
    | rw [handleDecode_sample_format]
    | split

/-- The sink-lifecycle stage never reports a stream-name mismatch. -/
theorem sinkStage_ne_droppedName (st : VbanRecipient) (env : RecipientEnv)
    (sr : VBanSampleRates) (ts : List Int) :
    (VbanRecipient.sinkStage st env sr ts).1 ≠ RecipientOutcome.droppedName := by
  unfold VbanRecipient.sinkStage
  repeat' first
    | simp
    | split

/-- The decode stage never reports a stream-name mismatch. -/
theorem handleDecode_ne_droppedName (st : VbanRecipient) (env : RecipientEnv)
    (pkt : List Nat) (sr : VBanSampleRates) :
    (VbanRecipient.handleDecode st env pkt sr).1 ≠ RecipientOutcome.droppedName := by
  simp only [VbanRecipient.handleDecode]
  repeat' first
    | exact sinkStage_ne_droppedName _ _ _ _
    | simp
    | split

/-- A packet dropped at the stream-name filter has already had the
`num_channels` field overwritten from its header. -/
theorem handleVban_droppedName_num_channels (st : VbanRecipient)
    (env : RecipientEnv) (pkt : List Nat)
    (h : (VbanRecipient.handleVban st env pkt).1 = RecipientOutcome.droppedName) :
    (VbanRecipient.handleVban st env pkt).2.num_channels
      = some ((VBanHeader.fromBytes pkt).num_channels + 1) := by
  revert h
  simp only [VbanRecipient.handleVban]
  repeat' split
  all_goals intro h
  all_goals first
    | rfl
    | exact absurd h (handleDecode_ne_droppedName _ _ _ _)
    | simp at h

/-- C10: for every received datagram whose first four bytes are `"VBAN"`,
`handle` overwrites the negotiated `sample_format` from packet byte 7
before any validation; and a packet dropped at the stream-name filter has
additionally had `num_channels` overwritten from packet byte 6 (plus
one). -/
theorem c10_negotiated_state_overwritten (st : VbanRecipient)
    (env : RecipientEnv) (pkt : List Nat)
    (h0 : pkt.getD 0 0 = 86) (h1 : pkt.getD 1 0 = 66)
    (h2 : pkt.getD 2 0 = 65) (h3 : pkt.getD 3 0 = 78) :
    (VbanRecipient.handle st env pkt).2.sample_format
        = some (VBanBitResolution.fromU8 (pkt.getD 7 0)) ∧
    ((VbanRecipient.handle st env pkt).1 = RecipientOutcome.droppedName →
      (VbanRecipient.handle st env pkt).2.num_channels
        = some (pkt.getD 6 0 + 1)) := by
  have hcond : pkt.getD 0 0 = 86 ∧ pkt.getD 1 0 = 66 ∧ pkt.getD 2 0 = 65
      ∧ pkt.getD 3 0 = 78 := ⟨h0, h1, h2, h3⟩
  simp only [VbanRecipient.handle]
  rw [if_pos hcond]
  constructor
  · rw [handleVban_sample_format]
    rfl
  · intro h
    rw [handleVban_droppedName_num_channels _ _ _ h]
    rfl

/-- Recipient configured with the stream-name filter `"Music"` (padded to
16 bytes). -/
def c10st : VbanRecipient :=
  { st0 with stream_name := some ([77, 117, 115, 105, 99] ++ List.replicate 11 0) }

/-- 28-byte `"VBAN"` PCM datagram with an all-zero stream name (which does
not match the `"Music"` filter), sample-rate index 3, one channel. -/
def c10pkt : List Nat :=
  [86, 66, 65, 78, 3, 0, 0, 1] ++ List.replicate 16 0 ++ [0, 0, 0, 0]

/-- C10 witness: on a name-filtered-out packet, the negotiated
`sample_format` and `num_channels` have still been overwritten from the
packet's header. -/
theorem c10_negotiated_state_overwritten_witness :
    (VbanRecipient.handle c10st env0 c10pkt).1 = RecipientOutcome.droppedName ∧
    (VbanRecipient.handle c10st env0 c10pkt).2.sample_format
      = some (VBanBitResolution.fromU8 (c10pkt.getD 7 0)) ∧
    (VbanRecipient.handle c10st env0 c10pkt).2.num_channels
      = some (c10pkt.getD 6 0 + 1) :=
  ⟨rfl,
   (c10_negotiated_state_overwritten c10st env0 c10pkt rfl rfl rfl rfl).1,
   (c10_negotiated_state_overwritten c10st env0 c10pkt rfl rfl rfl rfl).2 rfl⟩

-- ****************************************
--   Theorems: PCM decoded length (C7)
-- ****************************************

/-- The buffer written to the sink is exactly the decoded buffer the sink
stage was handed. -/
theorem sinkStage_played_eq (st : VbanRecipient) (env : RecipientEnv)
    (sr : VBanSampleRates) (ts l : List Int)
    (h : (VbanRecipient.sinkStage st env sr ts).1 = RecipientOutcome.played l) :
    l = ts := by
  unfold VbanRecipient.sinkStage at h
  repeat' first
    | split at h
    | dsimp only at h
  all_goals simp_all

/-- The PCM reinterpretation yields one `i16` per byte pair. -/
theorem pcmToSink_length (data : List Nat) :
    (pcmToSink data).length = data.length / 2 := by
  simp [pcmToSink]

/-- On a PCM packet (codec nibble 0), a decode stage that reaches the sink
write hands it `⌊(size - 28) / 2⌋` samples, where `size` is the datagram
length capped by the 1464-byte receive buffer. -/
theorem handleDecode_pcm_played_length (st : VbanRecipient)
    (env : RecipientEnv) (pkt : List Nat) (sr : VBanSampleRates) (l : List Int)
    (hc : pkt.getD 7 0 &&& 240 = 0)
    (h : (VbanRecipient.handleDecode st env pkt sr).1 = RecipientOutcome.played l) :
    l.length = (min pkt.length 1464 - 28) / 2 := by
  have hcodec : VBanCodec.fromU8 ((VBanHeader.fromBytes pkt).sample_format)
      = VBanCodec.VbanCodecPcm := by
    show VBanCodec.fromU8 (pkt.getD 7 0) = VBanCodec.VbanCodecPcm
    unfold VBanCodec.fromU8
    rw [hc]
  revert h
  simp only [VbanRecipient.handleDecode, hcodec]
  split
  · intro h
    simp at h
  · intro h
    rw [sinkStage_played_eq _ _ _ _ _ h, pcmToSink_length]
    simp only [List.length_drop, List.length_take]
    omega

/-- Lifting of `handleDecode_pcm_played_length` over the validation
stage. -/
theorem handleVban_pcm_played_length (st : VbanRecipient)
    (env : RecipientEnv) (pkt : List Nat) (l : List Int)
    (hc : pkt.getD 7 0 &&& 240 = 0)
    (h : (VbanRecipient.handleVban st env pkt).1 = RecipientOutcome.played l) :
    l.length = (min pkt.length 1464 - 28) / 2 := by
  revert h
  simp only [VbanRecipient.handleVban]
  repeat' split
  all_goals intro h
  all_goals first
    | exact handleDecode_pcm_played_length _ _ _ _ _ hc h
    | simp at h

/-- C7 as amended: for every PCM packet the recipient accepts (every
`handle` call that ends in a sink write), the number of decoded `i16`
samples equals `⌊(datagram length - 28) / 2⌋` — determined by the payload
length alone, not by the header's sample and channel counts. -/
theorem c7_pcm_decoded_length (st : VbanRecipient) (env : RecipientEnv)
    (pkt : List Nat) (l : List Int)
    (hc : pkt.getD 7 0 &&& 240 = 0)
    (h : (VbanRecipient.handle st env pkt).1 = RecipientOutcome.played l) :
    l.length = (min pkt.length 1464 - 28) / 2 := by
  revert h
  simp only [VbanRecipient.handle]
  split
  · intro h
    exact handleVban_pcm_played_length _ _ _ _ hc h
  · intro h
    simp at h

/-- A recipient already `Playing` at 48 kHz with a bound sink and no
stream filter. -/
def c7st : VbanRecipient :=
  { st0 with
    state := .Playing
    sample_rate := some .SampleRate48000Hz
    hasSink := true }

/-- 36-byte `"VBAN"` PCM datagram declaring 1 sample and 1 channel
(header bytes 5 and 6 both 0) but carrying 8 payload bytes. -/
def c7pkt : List Nat :=
  [86, 66, 65, 78, 3, 0, 0, 1] ++ List.replicate 16 0 ++ [0, 0, 0, 0]
    ++ [10, 0, 20, 0, 30, 0, 40, 0]

/-- C7 counterexample: the recipient accepts `c7pkt` and hands the sink 4
samples, although `(num_samples_wire + 1) × (num_channels_wire + 1) = 1`:
the decoded length follows the payload length, not the header counts. -/
theorem c7_pcm_length_counterexample :
    (VbanRecipient.handle c7st env0 c7pkt).1
      = RecipientOutcome.played [10, 20, 30, 40] ∧
    (c7pkt.getD 5 0 + 1) * (c7pkt.getD 6 0 + 1) = 1 ∧
    ([10, 20, 30, 40] : List Int).length
      ≠ (c7pkt.getD 5 0 + 1) * (c7pkt.getD 6 0 + 1) :=
  ⟨by decide, rfl, by decide⟩

/-- 32-byte `"VBAN"` PCM datagram with 4 payload bytes. -/
def c7wpkt : List Nat :=
  [86, 66, 65, 78, 3, 0, 0, 1] ++ List.replicate 16 0 ++ [0, 0, 0, 0]
    ++ [5, 0, 6, 0]

/-- C7 witness: the amended statement at the concrete accepted packet
`c7wpkt` (32 bytes, so `(32 - 28) / 2 = 2` samples). -/
theorem c7_pcm_decoded_length_witness :
    ([5, 6] : List Int).length = (min c7wpkt.length 1464 - 28) / 2 :=
  c7_pcm_decoded_length c7st env0 c7wpkt [5, 6] (by decide) (by decide)

-- ****************************************
--  Theorems: sender transmit tail lemmas
-- ****************************************

/-- A sent datagram's byte 7 is the format byte handed to the transmit
tail. -/
theorem senderTransmit_sent_getD7 {α : Type} {nu : Nat} {srB : Option Nat}
    {ns nc fmt : Nat} {name enc : List Nat} {bump : Nat → α → α} {st : α}
    {p : List Nat}
    (h : (senderTransmit nu srB ns nc fmt name enc bump st).1
      = SenderOutcome.sent p) :
    p.getD 7 0 = fmt := by
  revert h
  unfold senderTransmit
  repeat' first
    | split
    | dsimp only
  all_goals intro h
  all_goals first
    | (injection h with h2
       subst h2
       rfl)
    | simp_all

/-- A sent datagram carries the little-endian frame counter in bytes
24..27 (for the well-formed 16-byte stream name of a created sender). -/
theorem senderTransmit_sent_counter {α : Type} {nu : Nat} {srB : Option Nat}
    {ns nc fmt : Nat} {name enc : List Nat} {bump : Nat → α → α} {st : α}
    {p : List Nat} (hname : name.length = 16)
    (h : (senderTransmit nu srB ns nc fmt name enc bump st).1
      = SenderOutcome.sent p) :
    (p.drop 24).take 4 = u32le nu := by
  obtain ⟨a0, a1, a2, a3, a4, a5, a6, a7, a8, a9, a10, a11, a12, a13, a14, a15, rfl⟩ :=
    list16_exists name hname
  revert h
  unfold senderTransmit
  repeat' first
    | split
    | dsimp only
  all_goals intro h
  all_goals first
    | (injection h with h2
       subst h2
       rfl)
    | simp_all

/-- After a successful send the transmit tail commits the incremented
frame counter to the state. -/
theorem senderTransmit_sent_state {α : Type} {nu : Nat} {srB : Option Nat}
    {ns nc fmt : Nat} {name enc : List Nat} {bump : Nat → α → α} {st : α}
    {p : List Nat}
    (h : (senderTransmit nu srB ns nc fmt name enc bump st).1
      = SenderOutcome.sent p) :
    (senderTransmit nu srB ns nc fmt name enc bump st).2 = bump (nu + 1) st := by
  revert h
  unfold senderTransmit
  repeat' first
    | split
    | dsimp only
  all_goals intro h
  all_goals first
    | rfl
    | simp_all

-- ****************************************
--   Theorems: frame counter (C8)
-- ****************************************

/-- C8 as amended: every sender `handle` call that completes the transmit
step without counter overflow increments `nu_frame` by exactly 1 — for any
environment, so in particular when the Opus encode fails (zero-length
payload) and when `connect`/`send` fail — and the emitted datagram carries
the pre-increment counter little-endian in bytes 24..27.  At
`nu_frame = 2^32 - 1` the `self.nu_frame += 1` overflows instead of
wrapping (see the counterexample). -/
theorem c8_frame_counter_increment :
    (∀ (st : VbanSenderAlsa) (env : SenderEnv) (p : List Nat),
      st.name.length = 16 →
      (VbanSenderAlsa.handle st env).1 = SenderOutcome.sent p →
      (VbanSenderAlsa.handle st env).2.nu_frame = st.nu_frame + 1 ∧
      (p.drop 24).take 4 = u32le st.nu_frame) ∧
    (∀ (st : VbanSenderPw) (env : SenderEnv) (p : List Nat),
      st.name.length = 16 →
      (VbanSenderPw.handle st env).1 = SenderOutcome.sent p →
      (VbanSenderPw.handle st env).2.nu_frame = st.nu_frame + 1 ∧
      (p.drop 24).take 4 = u32le st.nu_frame) := by
  constructor
  · intro st env p hname h
    revert h
    simp only [VbanSenderAlsa.handle]
    repeat' split
    all_goals intro h
    all_goals first
      | exact ⟨by rw [senderTransmit_sent_state h],
               senderTransmit_sent_counter hname h⟩
      | simp_all
  · intro st env p hname h
    revert h
    simp only [VbanSenderPw.handle]
    repeat' split
    all_goals intro h
    all_goals first
      | exact ⟨by rw [senderTransmit_sent_state h],
               senderTransmit_sent_counter hname h⟩
      | simp_all

/-- PipeWire mono Opus sender state one step before `u32` wraparound. -/
def c8st : VbanSenderPw :=
  { num_channels := 1, sample_rate := .SampleRate48000Hz,
    sample_format := .VbanBitfmt16Int, name := List.replicate 16 0,
    nu_frame := 4294967295, encoder := .VbanCodecOpus true }

/-- Benign sender environment: source opens, reads silence, Opus encode
yields a 3-byte frame, connect and send succeed. -/
def c8env : SenderEnv :=
  { sourceOpenOk := true, sourceRead := fun n => List.replicate n 0,
    opusEncode := fun _ => some [1, 2, 3], connectOk := true, sendOk := true }

/-- The datagram emitted by `c8st` (240-sample mono Opus frame, counter
`2^32 - 1`). -/
def c8pkt : List Nat :=
  VBanHeader.intoBytes
    { preamble := [86, 66, 65, 78], sample_rate := 3, num_samples := 239,
      num_channels := 0, sample_format := 193,
      stream_name := List.replicate 16 0, nu_frame := 4294967295 }
    ++ [1, 2, 3]

set_option maxRecDepth 2048 in
/-- C8 counterexample: at `nu_frame = 2^32 - 1` the handle call still
sends the datagram, but the trailing `self.nu_frame += 1` overflows —
with overflow checks enabled this panics; the source does not use
`wrapping_add`, so wraparound to 0 without abort is not what the code
says.  The counter field is left unwrapped. -/
theorem c8_counter_overflow_counterexample :
    (VbanSenderPw.handle c8st c8env).1 = SenderOutcome.sentOverflowPanic c8pkt ∧
    (VbanSenderPw.handle c8st c8env).2.nu_frame = 4294967295 :=
  ⟨by decide, by decide⟩

/-- `c8st` with a mid-range frame counter. -/
def c8wst : VbanSenderPw := { c8st with nu_frame := 5 }

/-- The datagram emitted by `c8wst`. -/
def c8wpkt : List Nat :=
  VBanHeader.intoBytes
    { preamble := [86, 66, 65, 78], sample_rate := 3, num_samples := 239,
      num_channels := 0, sample_format := 193,
      stream_name := List.replicate 16 0, nu_frame := 5 }
    ++ [1, 2, 3]

set_option maxRecDepth 2048 in
/-- C8 witness: the increment theorem at a concrete send with counter 5. -/
theorem c8_frame_counter_increment_witness :
    (VbanSenderPw.handle c8wst c8env).2.nu_frame = c8wst.nu_frame + 1 ∧
    (c8wpkt.drop 24).take 4 = u32le c8wst.nu_frame :=
  c8_frame_counter_increment.2 c8wst c8env c8wpkt (by decide) (by decide)

-- ****************************************
--   Theorems: Opus codec byte (C6)
-- ****************************************

/-- C6 as amended: an Opus-configured PipeWire sender stamps
`bit_res | Into<u8>(Opus) = 0x01 | 0xC0 = 0xC1` into byte 7 of every
emitted datagram, but the Opus-configured ALSA sender ORs in the enum
discriminant of `VbanCodecOpus` (`VBanCodec::VbanCodecOpus as u8` = 12 =
0x0C, not the wire value 0xC0), stamping 0x0D — its codec nibble is 0x00,
not 0xC0. -/
theorem c6_opus_codec_byte :
    (∀ (st : VbanSenderPw) (env : SenderEnv) (p : List Nat) (b : Bool),
      st.encoder = VBanCodec.VbanCodecOpus b →
      st.sample_format = VBanBitResolution.VbanBitfmt16Int →
      (VbanSenderPw.handle st env).1 = SenderOutcome.sent p →
      p.getD 7 0 = 193 ∧ p.getD 7 0 &&& 240 = 192) ∧
    (∀ (st : VbanSenderAlsa) (env : SenderEnv) (p : List Nat),
      st.hasEncoder = true →
      st.sample_format = VBanBitResolution.VbanBitfmt16Int →
      (VbanSenderAlsa.handle st env).1 = SenderOutcome.sent p →
      p.getD 7 0 = 13 ∧ p.getD 7 0 &&& 240 = 0) := by
  constructor
  · intro st env p b hEnc hFmt h
    revert h
    simp only [VbanSenderPw.handle]
    repeat' split
    all_goals intro h
    all_goals first
      | (have h7 := senderTransmit_sent_getD7 h
         rw [hFmt] at h7
         rw [h7]
         exact ⟨rfl, rfl⟩)
      | simp_all
  · intro st env p hEnc hFmt h
    revert h
    simp only [VbanSenderAlsa.handle]
    repeat' split
    all_goals intro h
    all_goals first
      | (have h7 := senderTransmit_sent_getD7 h
         rw [hFmt] at h7
         rw [h7]
         exact ⟨rfl, rfl⟩)
      | simp_all

/-- ALSA sender state configured for stereo Opus at 48 kHz. -/
def c6st : VbanSenderAlsa :=
  { num_channels := 2, sample_rate := .SampleRate48000Hz,
    sample_format := .VbanBitfmt16Int, name := List.replicate 16 0,
    nu_frame := 0, state := .Playing, hasSource := true, hasEncoder := true }

/-- The datagram the Opus-configured ALSA sender emits: format byte
`0x01 | 0x0C = 0x0D`. -/
def c6pkt : List Nat :=
  VBanHeader.intoBytes
    { preamble := [86, 66, 65, 78], sample_rate := 3, num_samples := 239,
      num_channels := 1, sample_format := 13,
      stream_name := List.replicate 16 0, nu_frame := 0 }
    ++ [1, 2, 3]

set_option maxRecDepth 2048 in
/-- C6 counterexample: the ALSA sender configured with Opus emits a packet
whose format byte is 0x0D — the codec nibble is 0x00, not the claimed
0xC0. -/
theorem c6_alsa_opus_codec_byte_counterexample :
    (VbanSenderAlsa.handle c6st c8env).1 = SenderOutcome.sent c6pkt ∧
    c6pkt.getD 7 0 = 13 ∧ c6pkt.getD 7 0 &&& 240 ≠ 192 :=
  ⟨by decide, by decide, by decide⟩

/-- PipeWire sender state configured for mono Opus at 48 kHz. -/
def c6wst : VbanSenderPw :=
  { num_channels := 1, sample_rate := .SampleRate48000Hz,
    sample_format := .VbanBitfmt16Int, name := List.replicate 16 0,
    nu_frame := 0, encoder := .VbanCodecOpus true }

/-- The datagram the Opus-configured PipeWire sender emits: format byte
`0x01 | 0xC0 = 0xC1`. -/
def c6wpkt : List Nat :=
  VBanHeader.intoBytes
    { preamble := [86, 66, 65, 78], sample_rate := 3, num_samples := 239,
      num_channels := 0, sample_format := 193,
      stream_name := List.replicate 16 0, nu_frame := 0 }
    ++ [1, 2, 3]

set_option maxRecDepth 2048 in
/-- C6 witness: the codec-byte theorem at a concrete PipeWire Opus send. -/
theorem c6_opus_codec_byte_witness :
    c6wpkt.getD 7 0 = 193 ∧ c6wpkt.getD 7 0 &&& 240 = 192 :=
  c6_opus_codec_byte.1 c6wst c8env c6wpkt true rfl rfl (by decide)

-- ****************************************
--   Theorems: sender create (C3, C5)
-- ****************************************

/-- A benign create environment: bind and source init succeed. -/
def cenv : CreateEnv := { bindOk := true, sourceOpenOk := true }

/-- ALSA create arguments: Opus at 44.1 kHz — a rate the Opus encoder
constructor rejects. -/
def c3cfg : SenderCfgAlsa :=
  { stream_name := none, numch := 2, sample_rate := .SampleRate44100Hz,
    format := .VbanBitfmt16Int, encoder := some (.VbanCodecOpus false) }

/-- C3 counterexample: the ALSA sender's `create`, asked for Opus at
44100 Hz (a rate outside 12000/24000/48000), panics in
`Encoder::new(..).expect(..)` instead of returning `None`. -/
theorem c3_create_opus_rate_counterexample :
    VbanSenderAlsa.create c3cfg cenv = CreateResult.panicked ∧
    (CreateResult.panicked : CreateResult VbanSenderAlsa) ≠ CreateResult.failed :=
  ⟨by decide, by decide⟩

/-- C3 as amended: the PipeWire `create` returns `None` under each of the
six claimed conditions; the ALSA `create` returns `None` for a non-16-bit
resolution, an over-long stream name, a non-1/2 Opus channel count and a
failed bind, but it never consults the capture backend (source init
happens in `handle`, so a failing source cannot make `create` return
`None`), and — per the counterexample — an unsupported Opus rate panics
rather than returning `None`. -/
theorem c3_create_failure_modes :
    (∀ (cfg : SenderCfgPw) (env : CreateEnv),
      cfg.format ≠ VBanBitResolution.VbanBitfmt16Int →
      VbanSenderPw.create cfg env = CreateResult.failed) ∧
    (∀ (cfg : SenderCfgPw) (env : CreateEnv),
      16 < cfg.stream_name.length →
      VbanSenderPw.create cfg env = CreateResult.failed) ∧
    (∀ (cfg : SenderCfgPw) (env : CreateEnv),
      VBanCodec.fromU8 cfg.encoder = VBanCodec.VbanCodecOpus false →
      cfg.numch ≠ 1 → cfg.numch ≠ 2 →
      VbanSenderPw.create cfg env = CreateResult.failed) ∧
    (∀ (cfg : SenderCfgPw) (env : CreateEnv),
      VBanCodec.fromU8 cfg.encoder = VBanCodec.VbanCodecOpus false →
      cfg.sample_rate ≠ VBanSampleRates.SampleRate12000Hz →
      cfg.sample_rate ≠ VBanSampleRates.SampleRate24000Hz →
      cfg.sample_rate ≠ VBanSampleRates.SampleRate48000Hz →
      VbanSenderPw.create cfg env = CreateResult.failed) ∧
    (∀ (cfg : SenderCfgPw) (env : CreateEnv),
      env.sourceOpenOk = false →
      VbanSenderPw.create cfg env = CreateResult.failed) ∧
    (∀ (cfg : SenderCfgPw) (env : CreateEnv),
      env.bindOk = false →
      VbanSenderPw.create cfg env = CreateResult.failed) ∧
    (∀ (cfg : SenderCfgAlsa) (env : CreateEnv),
      cfg.format ≠ VBanBitResolution.VbanBitfmt16Int →
      VbanSenderAlsa.create cfg env = CreateResult.failed) ∧
    (∀ (cfg : SenderCfgAlsa) (env : CreateEnv) (n : List Nat),
      cfg.stream_name = some n → 16 < n.length →
      VbanSenderAlsa.create cfg env = CreateResult.failed) ∧
    (∀ (cfg : SenderCfgAlsa) (env : CreateEnv) (b : Bool),
      cfg.stream_name = none →
      cfg.encoder = some (VBanCodec.VbanCodecOpus b) →
      cfg.numch ≠ 1 → cfg.numch ≠ 2 →
      VbanSenderAlsa.create cfg env = CreateResult.failed) ∧
    (∀ (cfg : SenderCfgAlsa) (env : CreateEnv),
      cfg.stream_name = none → cfg.encoder = none → env.bindOk = false →
      VbanSenderAlsa.create cfg env = CreateResult.failed) ∧
    (∀ (cfg : SenderCfgAlsa) (b s1 s2 : Bool),
      VbanSenderAlsa.create cfg { bindOk := b, sourceOpenOk := s1 }
        = VbanSenderAlsa.create cfg { bindOk := b, sourceOpenOk := s2 }) := by
  refine ⟨?_, ?_, ?_, ?_, ?_, ?_, ?_, ?_, ?_, ?_, ?_⟩
  · intro cfg env h
    simp only [VbanSenderPw.create]
    repeat' split
    all_goals simp_all
  · intro cfg env h
    simp only [VbanSenderPw.create]
    repeat' split
    all_goals simp_all
  · intro cfg env hc h1 h2
    simp only [VbanSenderPw.create]
    repeat' split
    all_goals simp_all
  · intro cfg env hc h1 h2 h3
    simp only [VbanSenderPw.create]
    repeat' split
    all_goals simp_all
  · intro cfg env h
    simp only [VbanSenderPw.create]
    repeat' split
    all_goals simp_all
  · intro cfg env h
    simp only [VbanSenderPw.create]
    repeat' split
    all_goals simp_all
  · intro cfg env h
    simp only [VbanSenderAlsa.create]
    repeat' split
    all_goals simp_all
  · intro cfg env n hn h
    simp only [VbanSenderAlsa.create]
    repeat' split
    all_goals simp_all
  · intro cfg env b hn he h1 h2
    simp only [VbanSenderAlsa.create]
    repeat' split
    all_goals simp_all
  · intro cfg env hn he hb
    simp only [VbanSenderAlsa.create]
    repeat' split
    all_goals simp_all
  · intro cfg b s1 s2
    rfl

/-- PipeWire create arguments with a non-16-bit resolution. -/
def c3wcfg : SenderCfgPw :=
  { stream_name := [], numch := 2, sample_rate := .SampleRate48000Hz,
    format := .VbanBitfmt8Int, encoder := 0 }

/-- C3 witness: the failure-mode theorem at a concrete 8-bit config. -/
theorem c3_create_failure_modes_witness :
    VbanSenderPw.create c3wcfg cenv = CreateResult.failed :=
  c3_create_failure_modes.1 c3wcfg cenv (by decide)

/-- ALSA create arguments with the 5-byte stream name `"Music"`. -/
def c5cfg : SenderCfgAlsa :=
  { stream_name := some [77, 117, 115, 105, 99], numch := 2,
    sample_rate := .SampleRate48000Hz, format := .VbanBitfmt16Int,
    encoder := none }

/-- PipeWire create arguments with the 5-byte stream name `"Music"`. -/
def c5cfgPw : SenderCfgPw :=
  { stream_name := [77, 117, 115, 105, 99], numch := 2,
    sample_rate := .SampleRate48000Hz, format := .VbanBitfmt16Int,
    encoder := 0 }

/-- The sender the PipeWire `create` builds for `"Music"`: the name is
right-zero-padded to 16 bytes. -/
def c5pwSt : VbanSenderPw :=
  { num_channels := 2, sample_rate := .SampleRate48000Hz,
    sample_format := .VbanBitfmt16Int,
    name := [77, 117, 115, 105, 99] ++ List.replicate 11 0,
    nu_frame := 0, encoder := .VbanCodecPcm }

/-- C5: the ALSA sender's `create` panics (index out of bounds) on the
5-byte name `"Music"` — the copy loop iterates over all 16 destination
slots and reads `custom_name.as_bytes()[idx]` past the end — while the
PipeWire `create` succeeds and right-zero-pads the name to 16 bytes as the
claim states.  The evaluation at the failing input `"Music"`. -/
theorem c5_short_name_create :
    VbanSenderAlsa.create c5cfg cenv = CreateResult.panicked ∧
    VbanSenderPw.create c5cfgPw cenv = CreateResult.created c5pwSt :=
  ⟨by decide, by decide⟩
